import Mathlib

/-!
Verification of the TalentFlow candidate-stage pipeline.

This file gives a shallow embedding of the stage-transition subsystem of the
TalentFlow recruiting app: the candidate/timeline data model persisted in the
Dexie (IndexedDB) store, the mock PATCH `/candidates/:id` handler, the two
drag-and-drop stage-change mutations (`CandidatesKanban.updateCandidateStage`
and `CandidatesList.updateCandidateStage`), the Kanban grouping view, and the
drag-end resolution logic.  Theorems at the end settle the specification's
claims about this subsystem.

Modelling conventions:
- JS stage values are strings; candidate and timeline records are structures
  holding exactly the fields the embedded code reads or writes.
- Dexie `table.update(id, changes)` merges `changes` into the row whose
  primary key equals `id`; with an unknown id it updates zero rows and still
  resolves successfully.
- Dexie `table.add(obj)` on the `timeline` table (schema
  `timeline: 'id, candidateId, timestamp'`, an inbound non-autoincrement
  primary key) rejects when `obj` carries no `id` property; otherwise the
  record is appended.
- Injected failures (the mock's `simulateNetwork(true)` throw, and real
  backing-store failures of individual Dexie calls) are threaded as explicit
  Boolean fault flags; a failed awaited call aborts the remaining steps of
  the enclosing async function.
-/

/-- A candidate record, with the fields the embedded code paths read or
write.  `stage` is a plain string in the source (no enforcement that it is a
registry member). -/
structure Candidate where
  id : String
  name : String
  email : String
  phone : String
  stage : String
  jobId : String
  skills : List String
  experience : Nat
  appliedDate : String
  notes : Option String
  updatedAt : Option String
deriving DecidableEq, Repr

/-- Timestamps written by the different call sites: ISO-8601 strings
(`new Date().toISOString()`) or epoch milliseconds (`Date.now()`). -/
inductive Timestamp where
  | iso (s : String)
  | millis (n : Nat)
deriving DecidableEq, Repr

/-- The `metadata` object the mock PATCH handler attaches to a
`stage_change` timeline event. -/
structure StageMeta where
  fromStage : String
  toStage : String
deriving DecidableEq, Repr

/-- A timeline record.  Optional fields model JS object properties that some
call sites write and others omit. -/
structure TimelineEvent where
  id : Option String
  candidateId : String
  type : String
  title : Option String
  description : String
  timestamp : Timestamp
  userName : Option String
  metadata : Option StageMeta
deriving DecidableEq, Repr

/-- The persisted Dexie store, restricted to the two tables the stage
pipeline touches. -/
structure Store where
  candidates : List Candidate
  timeline : List TimelineEvent
deriving DecidableEq, Repr

/-- Dexie `db.candidates.update(id, changes)`: merge `changes` into every
row whose primary key equals `id` (at most one in practice); an unknown id
updates zero rows and the call still resolves. -/
def candidatesUpdate (s : Store) (id : String) (changes : Candidate → Candidate) : Store :=
  { s with candidates := s.candidates.map (fun c => if c.id == id then changes c else c) }

/-- Dexie `db.timeline.add(event)` against schema
`timeline: 'id, candidateId, timestamp'`: the inbound primary key `id` must
be present on the added object, otherwise the call rejects with a DataError;
on success the event is appended. -/
def timelineAdd (s : Store) (e : TimelineEvent) : Option Store :=
  match e.id with
  | none => none
  | some _ => some { s with timeline := s.timeline ++ [e] }

/-- Sample candidate builder used to instantiate concrete scenarios. -/
def sampleCandidate (id stage : String) : Candidate :=
  { id := id, name := "Jane Smith", email := "jane@example.com", phone := "+1 555 0100",
    stage := stage, jobId := "job-1", skills := ["React", "Node.js"], experience := 3,
    appliedDate := "2024-01-01", notes := none, updatedAt := none }

namespace Handlers

/-- The timeline event the first PATCH `/candidates/:id` handler adds when
the stage changes: a fresh uuid id, both `title` and `description`, an
ISO-8601 `timestamp`, and `metadata` recording the old and new stage. -/
def patchStageEvent (newId id fromS toS nowIso : String) : TimelineEvent :=
  { id := some newId, candidateId := id, type := "stage_change",
    title := some ("Moved to " ++ toS ++ " stage"),
    description := "Candidate moved from " ++ fromS ++ " to " ++ toS,
    timestamp := .iso nowIso, userName := none,
    metadata := some { fromStage := fromS, toStage := toS } }

/-- The partial update body of a PATCH `/candidates/:id` request, restricted
to the fields the drag flows send. -/
structure PatchUpdates where
  stage : Option String
  notes : Option String
deriving DecidableEq, Repr

/-- The spread `{...candidate, ...updates, updatedAt: new Date().toISOString()}`
computed by the PATCH handler. -/
def applyPatchUpdates (c : Candidate) (u : PatchUpdates) (nowIso : String) : Candidate :=
  { c with
    stage := u.stage.getD c.stage,
    notes := match u.notes with | some n => some n | none => c.notes,
    updatedAt := some nowIso }

/-- Result of the PATCH `/candidates/:id` handler: 200 with the updated
candidate, 404 `Candidate not found`, or 500 (caught error / simulated
network failure). -/
inductive PatchResult where
  | ok (c : Candidate)
  | notFound
  | serverError
deriving DecidableEq, Repr

/-- The first (live) PATCH `/candidates/:id` handler in
`src/mocks/handlers.js`.  Steps, in source order: `simulateNetwork(true)`
(may throw, modelled by `netFail`); fetch the candidate, 404 when absent;
when `updates.stage` is truthy and differs from the current stage, add a
`stage_change` timeline event (a real store failure of this add is modelled
by `addFail`); finally `db.candidates.update(id, updatedCandidate)` (a real
store failure modelled by `updFail`).  A thrown step aborts the remaining
steps and the catch block returns a 500. -/
def patchCandidate (netFail addFail updFail : Bool) (newId nowIso : String)
    (id : String) (u : PatchUpdates) (s : Store) : PatchResult × Store :=
  if netFail then (.serverError, s)
  else
    match s.candidates.find? (fun c => c.id == id) with
    | none => (.notFound, s)
    | some candidate =>
      let updated := applyPatchUpdates candidate u nowIso
      match u.stage with
      | some t =>
        if t != "" && t != candidate.stage then
          if addFail then (.serverError, s)
          else
            match timelineAdd s (patchStageEvent newId id candidate.stage t nowIso) with
            | none => (.serverError, s)
            | some s1 =>
              if updFail then (.serverError, s1)
              else (.ok updated, candidatesUpdate s1 id (fun _ => updated))
        else
          if updFail then (.serverError, s)
          else (.ok updated, candidatesUpdate s id (fun _ => updated))
      | none =>
        if updFail then (.serverError, s)
        else (.ok updated, candidatesUpdate s id (fun _ => updated))

end Handlers

namespace CandidatesList

/-- The timeline event built inside `CandidatesList.updateCandidateStage`'s
mutationFn: no `id` and no `title`, a `description` only, `timestamp` as
`Date.now()` epoch milliseconds, and a `userName`. -/
def listStageEvent (id stage : String) (nowMs : Nat) : TimelineEvent :=
  { id := none, candidateId := id, type := "status_change",
    title := none, description := "Moved to " ++ stage ++ " stage",
    timestamp := .millis nowMs, userName := some "System", metadata := none }

/-- `CandidatesList.updateCandidateStage`'s mutationFn:
`await db.candidates.update(id, { stage })` then `await db.timeline.add(...)`.
`updFail` models a real store failure of the first call; a rejected await
aborts the remaining steps.  Returns whether the mutation resolved, together
with the resulting persisted store. -/
def updateCandidateStage (updFail : Bool) (nowMs : Nat) (id stage : String)
    (s : Store) : Bool × Store :=
  if updFail then (false, s)
  else
    let s1 := candidatesUpdate s id (fun c => { c with stage := stage })
    match timelineAdd s1 (listStageEvent id stage nowMs) with
    | none => (false, s1)
    | some s2 => (true, s2)

/-- Action decided by `CandidatesList.handleStageDrop`. -/
inductive StageDropAction where
  | noop
  | mutate (id stage : String)
deriving DecidableEq, Repr

/-- `CandidatesList.handleStageDrop`: falsy id or stage, an unknown
candidate, or a target equal to the candidate's current stage is a no-op;
otherwise the stage mutation is invoked. -/
def handleStageDrop (cands : List Candidate) (candidateId newStage : String) :
    StageDropAction :=
  if candidateId == "" || newStage == "" then .noop
  else
    match cands.find? (fun c => c.id == candidateId) with
    | none => .noop
    | some c => if c.stage == newStage then .noop else .mutate candidateId newStage

end CandidatesList

namespace CandidatesKanban

/-- One entry of the `STAGES` constant in `CandidatesKanban.jsx`. -/
structure StageInfo where
  value : String
  label : String
  color : String
deriving DecidableEq, Repr

/-- The `STAGES` constant of `CandidatesKanban.jsx` (lines 38-45). -/
def STAGES : List StageInfo :=
  [ { value := "applied", label := "Applied", color := "bg-blue-100 text-blue-800" },
    { value := "screen", label := "Screening", color := "bg-purple-100 text-purple-800" },
    { value := "tech", label := "Technical", color := "bg-amber-100 text-amber-800" },
    { value := "offer", label := "Offer", color := "bg-green-100 text-green-800" },
    { value := "hired", label := "Hired", color := "bg-emerald-100 text-emerald-800" },
    { value := "rejected", label := "Rejected", color := "bg-red-100 text-red-800" } ]

/-- `candidatesByStage`: `STAGES.reduce` builds an object keyed by each
registry stage value, mapped to the candidates whose `stage` field equals
that value; the follow-up `forEach` ensures every key is present (already
guaranteed by the reduce).  Embedded as an association list whose key order
is the `STAGES` order. -/
def candidatesByStage (cs : List Candidate) : List (String × List Candidate) :=
  STAGES.map (fun st => (st.value, cs.filter (fun c => c.stage == st.value)))

/-- Concatenation of all grouped lists of `candidatesByStage`, used to state
the grouping-completeness property. -/
def groupedUnion (cs : List Candidate) : List Candidate :=
  (candidatesByStage cs).foldr (fun p acc => p.2 ++ acc) []

/-- The client state the Kanban mutation manipulates: the react-query cache
for key `candidates-kanban` plus the persisted Dexie store. -/
structure KanbanState where
  cache : List Candidate
  store : Store
deriving DecidableEq, Repr

/-- The optimistic cache write both `onMutate` and the mutationFn perform:
map the cached list, replacing the matching candidate's `stage`. -/
def kanbanOptimistic (cache : List Candidate) (id t : String) : List Candidate :=
  cache.map (fun c => if c.id == id then { c with stage := t } else c)

/-- The synchronous opening of `CandidatesKanban.updateCandidateStage`:
`onMutate` snapshots the cached list and applies the optimistic stage write;
the mutationFn then re-applies the same optimistic write before awaiting the
Dexie update.  Returns the snapshot and the state after both cache writes. -/
def beginMutation (id t : String) (st : KanbanState) : List Candidate × KanbanState :=
  (st.cache, { st with cache := kanbanOptimistic (kanbanOptimistic st.cache id t) id t })

/-- The awaited tail of the mutation: `db.candidates.update(id, { stage })`
(a real store failure modelled by `failDb`).  On success the persisted store
carries the stage write; on failure `onError` restores the `onMutate`
snapshot into the cache and the store is untouched. -/
def resolveMutation (failDb : Bool) (id t : String) (snapshot : List Candidate)
    (st : KanbanState) : Bool × KanbanState :=
  if failDb then (false, { st with cache := snapshot })
  else (true, { st with store := candidatesUpdate st.store id (fun c => { c with stage := t }) })

/-- `CandidatesKanban.updateCandidateStage` run to completion with no other
mutation interleaved: begin (snapshot + optimistic cache writes) then
resolve (Dexie stage write, or rollback on failure). -/
def updateCandidateStage (failDb : Bool) (id t : String) (st : KanbanState) :
    Bool × KanbanState :=
  let p := beginMutation id t st
  resolveMutation failDb id t p.1 p.2

/-- Resolution of the element dropped on: the loop over `STAGES` that finds
the first column whose grouped list contains the card with id `overId`. -/
def stageOfOverId (byStage : List (String × List Candidate)) (overId : String) :
    Option String :=
  (byStage.find? (fun p => p.2.any (fun c => c.id == overId))).map Prod.fst

/-- `handleDragEnd`'s target-stage resolution: a drop on an empty column's
drop zone carries the stage value itself; otherwise the owning column of the
card dropped on is looked up in `candidatesByStage`. -/
def resolveNewStage (paginated : List Candidate) (overId : String) : Option String :=
  if STAGES.any (fun s => s.value == overId) then some overId
  else stageOfOverId (candidatesByStage paginated) overId

/-- Action decided by `CandidatesKanban.handleDragEnd`. -/
inductive DragEndAction where
  | noop
  | commit (id stage : String)
deriving DecidableEq, Repr

/-- `CandidatesKanban.handleDragEnd`: with no drop target, an unknown
candidate, an unresolvable target stage, or a target stage equal to the
candidate's current stage, it returns without calling the mutation;
otherwise it invokes `updateCandidateStage`. -/
def handleDragEnd (filtered paginated : List Candidate) (activeId : String)
    (overId : Option String) : DragEndAction :=
  match overId with
  | none => .noop
  | some ov =>
    match filtered.find? (fun c => c.id == activeId), resolveNewStage paginated ov with
    | some c, some t => if c.stage == t then .noop else .commit activeId t
    | _, _ => .noop

/-- Effect of the action `handleDragEnd` decided: a no-op issues no store
call and leaves the cache and the store untouched; a commit runs the
mutation. -/
def applyDragEnd (a : DragEndAction) (failDb : Bool) (st : KanbanState) :
    Bool × KanbanState :=
  match a with
  | .noop => (true, st)
  | .commit id t => updateCandidateStage failDb id t st

end CandidatesKanban

/-- The fixed ordered stage enumeration named by the specification. -/
def stageRegistry : List String :=
  ["applied", "screen", "tech", "offer", "hired", "rejected"]

/-- The `stages` array inside `CandidatesKanban.generateMockCandidates`
(line 64). -/
def generateMockStages : List String :=
  ["applied", "screen", "tech", "offer", "hired", "rejected"]

namespace KanbanColumn

/-- The `STAGE_TITLES` constant of the KanbanColumn source file, an object
whose keys are written in pipeline order. -/
def STAGE_TITLES : List (String × String) :=
  [("applied", "Applied"), ("screen", "Screening"), ("tech", "Technical"),
   ("offer", "Offer"), ("hired", "Hired"), ("rejected", "Rejected")]

/-- The `STAGE_COLORS` constant of the KanbanColumn source file. -/
def STAGE_COLORS : List (String × String) :=
  [("applied", "bg-blue-500 text-white"), ("screen", "bg-purple-500 text-white"),
   ("tech", "bg-amber-500 text-white"), ("offer", "bg-green-500 text-white"),
   ("hired", "bg-emerald-500 text-white"), ("rejected", "bg-red-500 text-white")]

end KanbanColumn

namespace CandidatesListConstants

/-- The `STAGE_LABELS` constant of `CandidatesList.jsx`. -/
def STAGE_LABELS : List (String × String) :=
  [("applied", "Applied"), ("screen", "Screening"), ("tech", "Technical"),
   ("offer", "Offer"), ("hired", "Hired"), ("rejected", "Rejected")]

/-- The stage filter options rendered by `CandidatesList.jsx`'s stage
`Select` (lines 351-356), in source order, excluding the `all` sentinel. -/
def stageFilterOptions : List String :=
  ["applied", "screen", "tech", "offer", "hired", "rejected"]

end CandidatesListConstants

namespace CandidateDetail

/-- One entry of the `STAGES` constant in `CandidateDetail.jsx`; the `icon`
property is a React component and is omitted from the data model. -/
structure StageConfig where
  id : String
  name : String
  color : String
deriving DecidableEq, Repr

/-- The `STAGES` constant of `CandidateDetail.jsx` (lines 33-40). -/
def STAGES : List StageConfig :=
  [ { id := "applied", name := "Applied", color := "bg-blue-100 text-blue-800" },
    { id := "screen", name := "Screening", color := "bg-purple-100 text-purple-800" },
    { id := "tech", name := "Technical", color := "bg-amber-100 text-amber-800" },
    { id := "offer", name := "Offer", color := "bg-green-100 text-green-800" },
    { id := "hired", name := "Hired", color := "bg-emerald-100 text-emerald-800" },
    { id := "rejected", name := "Rejected", color := "bg-red-100 text-red-800" } ]

end CandidateDetail

namespace CandidateCard

/-- One entry of the `STAGES` constant in `CandidateCard.jsx`. -/
structure StageConfig where
  id : String
  name : String
  color : String
deriving DecidableEq, Repr

/-- The `STAGES` constant of `CandidateCard.jsx` (lines 129-136). -/
def STAGES : List StageConfig :=
  [ { id := "applied", name := "Applied", color := "bg-blue-500" },
    { id := "screen", name := "Screening", color := "bg-purple-500" },
    { id := "tech", name := "Technical", color := "bg-amber-500" },
    { id := "offer", name := "Offer", color := "bg-green-500" },
    { id := "hired", name := "Hired", color := "bg-emerald-500" },
    { id := "rejected", name := "Rejected", color := "bg-red-500" } ]

end CandidateCard

/-- The `STAGES` constant of `src/mocks/seed-data.js` (line 39). -/
def mocksSeedStages : List String :=
  ["applied", "screen", "tech", "offer", "hired", "rejected"]

/-- The `STAGES` constant of `src/lib/seed-data.js` (line 200). -/
def libSeedStages : List String :=
  ["applied", "screen", "tech", "offer", "hired", "rejected"]

/-- The `CandidateStage` union typedef of `src/types/candidate.js`, as the
ordered list of its string alternatives. -/
def candidateStageTypedef : List String :=
  ["applied", "screen", "tech", "offer", "hired", "rejected"]

/-- Number of occurrences of the record `c` in the list `l` (JS identity is
irrelevant here: records are compared field for field). -/
def occ (c : Candidate) (l : List Candidate) : Nat :=
  l.countP (fun x => x == c)

lemma occ_append (c : Candidate) (l1 l2 : List Candidate) :
    occ c (l1 ++ l2) = occ c l1 + occ c l2 :=
  List.countP_append _ _ _

lemma occ_filter (c : Candidate) (v : String) (l : List Candidate) :
    occ c (l.filter (fun x => x.stage == v)) = if c.stage = v then occ c l else 0 := by
  induction l with
  | nil => simp [occ]
  | cons a l ih =>
    by_cases hav : a.stage = v
    · rw [List.filter_cons_of_pos (by simpa using hav)]
      by_cases hcv : c.stage = v
      · simp only [occ, List.countP_cons] at *
        simp [hcv] at ih ⊢
        omega
      · have hac : (a == c) = false := by
          refine beq_eq_false_iff_ne.mpr ?_
          intro h
          exact hcv (h ▸ hav)
        simp only [occ, List.countP_cons] at *
        simp [hcv, hac] at ih ⊢
        exact ih
    · rw [List.filter_cons_of_neg (by simpa using hav)]
      by_cases hcv : c.stage = v
      · have hac : (a == c) = false := by
          refine beq_eq_false_iff_ne.mpr ?_
          intro h
          exact hav (h ▸ hcv)
        simp only [occ, List.countP_cons] at *
        simp [hcv, hac] at ih ⊢
        exact ih
      · simpa [hcv] using ih

/- ------------------------------------------------------------------ -/
/- Claim theorems                                                      -/
/- ------------------------------------------------------------------ -/

/-- C8: the stage registry is the fixed ordered enumeration `applied,
screen, tech, offer, hired, rejected`; every stage list in the source
(Kanban board, Kanban column titles and colors, list-view labels and filter
options, candidate detail page, candidate card, both seed modules, the
`CandidateStage` typedef, and the mock generator) enumerates exactly these
six values in exactly this order.  Each list is a module-level constant,
hence stable for the process lifetime. -/
theorem C8_stage_registry_fixed :
    CandidatesKanban.STAGES.map CandidatesKanban.StageInfo.value = stageRegistry
    ∧ KanbanColumn.STAGE_TITLES.map Prod.fst = stageRegistry
    ∧ KanbanColumn.STAGE_COLORS.map Prod.fst = stageRegistry
    ∧ CandidatesListConstants.STAGE_LABELS.map Prod.fst = stageRegistry
    ∧ CandidatesListConstants.stageFilterOptions = stageRegistry
    ∧ CandidateDetail.STAGES.map CandidateDetail.StageConfig.id = stageRegistry
    ∧ CandidateCard.STAGES.map CandidateCard.StageConfig.id = stageRegistry
    ∧ mocksSeedStages = stageRegistry
    ∧ libSeedStages = stageRegistry
    ∧ candidateStageTypedef = stageRegistry
    ∧ generateMockStages = stageRegistry :=
  ⟨rfl, rfl, rfl, rfl, rfl, rfl, rfl, rfl, rfl, rfl, rfl⟩

/-- C9: the stage-change timeline writers persist records of different
shapes: the PATCH `/candidates/:id` handler writes both `title` and
`description` with an ISO-8601 string `timestamp`, while the
`CandidatesList` mutation writes only a `description` (no `title`) with an
epoch-milliseconds `timestamp` — the two call sites are not equivalent in
the record representation they persist. -/
theorem C9_timeline_event_shapes_diverge (newId id fromS toS nowIso lid lstage : String)
    (nowMs : Nat) :
    (Handlers.patchStageEvent newId id fromS toS nowIso).title.isSome = true
    ∧ (∃ s, (Handlers.patchStageEvent newId id fromS toS nowIso).timestamp = .iso s)
    ∧ (CandidatesList.listStageEvent lid lstage nowMs).title = none
    ∧ (∃ n, (CandidatesList.listStageEvent lid lstage nowMs).timestamp = .millis n)
    ∧ (Handlers.patchStageEvent newId id fromS toS nowIso).title ≠
        (CandidatesList.listStageEvent lid lstage nowMs).title
    ∧ (Handlers.patchStageEvent newId id fromS toS nowIso).timestamp ≠
        (CandidatesList.listStageEvent lid lstage nowMs).timestamp := by
  refine ⟨rfl, ⟨nowIso, rfl⟩, rfl, ⟨nowMs, rfl⟩, ?_, ?_⟩
  · simp [Handlers.patchStageEvent, CandidatesList.listStageEvent]
  · simp [Handlers.patchStageEvent, CandidatesList.listStageEvent]

/-- C10: a committed Kanban drag writes only the `stage` field: the
resulting persisted table rewrites exactly the matching row's `stage` and
every other field of every row (name, email, phone, jobId, skills,
experience, appliedDate, notes, updatedAt, id) is unchanged; in contrast the
HTTP PATCH path always stamps `updatedAt`. -/
theorem C10_kanban_commit_writes_only_stage (st : CandidatesKanban.KanbanState)
    (id t : String) :
    ((CandidatesKanban.updateCandidateStage false id t st).2.store.candidates =
      st.store.candidates.map (fun c => if c.id == id then { c with stage := t } else c))
    ∧ (∀ (c : Candidate) (v : String),
        ({ c with stage := v } : Candidate).id = c.id
        ∧ ({ c with stage := v } : Candidate).name = c.name
        ∧ ({ c with stage := v } : Candidate).email = c.email
        ∧ ({ c with stage := v } : Candidate).phone = c.phone
        ∧ ({ c with stage := v } : Candidate).jobId = c.jobId
        ∧ ({ c with stage := v } : Candidate).skills = c.skills
        ∧ ({ c with stage := v } : Candidate).experience = c.experience
        ∧ ({ c with stage := v } : Candidate).appliedDate = c.appliedDate
        ∧ ({ c with stage := v } : Candidate).notes = c.notes
        ∧ ({ c with stage := v } : Candidate).updatedAt = c.updatedAt)
    ∧ (∀ (c : Candidate) (u : Handlers.PatchUpdates) (nowIso : String),
        (Handlers.applyPatchUpdates c u nowIso).updatedAt = some nowIso) :=
  ⟨rfl, fun _ _ => ⟨rfl, rfl, rfl, rfl, rfl, rfl, rfl, rfl, rfl, rfl⟩, fun _ _ _ => rfl⟩

/-- The store used to exhibit the C2 failing input: one candidate `c1` at
stage `applied`, an empty timeline. -/
def c2store : Store :=
  { candidates := [sampleCandidate "c1" "applied"], timeline := [] }

/-- C2 (code bug): a `CandidatesList` stage change on candidate `c1`
(`applied` → `tech`) first persists `stage := tech`, then calls
`db.timeline.add` without an `id` — which the `timeline` table's inbound
primary key rejects — so the mutation fails, yet the persisted stage is
already `tech` and nothing rolls it back: a failed `setStage` leaves a
partial write, contradicting the claim. -/
theorem C2_list_path_partial_write :
    (CandidatesList.updateCandidateStage false 1000 "c1" "tech" c2store).1 = false
    ∧ (CandidatesList.updateCandidateStage false 1000 "c1" "tech" c2store).2.candidates =
        [{ sampleCandidate "c1" "applied" with stage := "tech" }]
    ∧ (CandidatesList.updateCandidateStage false 1000 "c1" "tech" c2store).2.timeline = []
    ∧ ({ sampleCandidate "c1" "applied" with stage := "tech" } : Candidate).stage ≠
        (sampleCandidate "c1" "applied").stage := by
  refine ⟨rfl, by decide, rfl, by decide⟩

/-- C3: a failing Kanban `updateCandidateStage` restores the exact
pre-mutation snapshot — the whole resulting client state (the cached
candidate list, every field of every cached record, and the untouched
persisted store) equals the pre-call state — and a failing `CandidatesList`
stage mutation appends zero timeline events (its path never touches the
cache at all, so the cached record trivially equals its pre-call value). -/
theorem C3_rollback_restores_snapshot (id t : String) (st : CandidatesKanban.KanbanState)
    (uf : Bool) (nowMs : Nat) (lid lt : String) (s : Store)
    (hfail : (CandidatesList.updateCandidateStage uf nowMs lid lt s).1 = false) :
    CandidatesKanban.updateCandidateStage true id t st = (false, st)
    ∧ (CandidatesList.updateCandidateStage uf nowMs lid lt s).2.timeline = s.timeline := by
  refine ⟨rfl, ?_⟩
  cases uf <;> rfl

/-- The client state used to instantiate the C3 witness. -/
def c3state : CandidatesKanban.KanbanState :=
  { cache := [sampleCandidate "c1" "applied"],
    store := { candidates := [sampleCandidate "c1" "applied"], timeline := [] } }

/-- Witness for C3 at a concrete input: the `CandidatesList` mutation on
`c2store` does fail, and the rollback conclusions hold there. -/
theorem C3_rollback_witness :
    (CandidatesList.updateCandidateStage false 7 "c1" "tech" c2store).1 = false
    ∧ (CandidatesKanban.updateCandidateStage true "c1" "tech" c3state = (false, c3state)
       ∧ (CandidatesList.updateCandidateStage false 7 "c1" "tech" c2store).2.timeline =
          c2store.timeline) :=
  ⟨rfl, C3_rollback_restores_snapshot "c1" "tech" c3state false 7 "c1" "tech" c2store rfl⟩

/-- The client state used for the C1 counterexample: one candidate `c1` at
stage `screen`, empty timeline. -/
def c1state : CandidatesKanban.KanbanState :=
  { cache := [sampleCandidate "c1" "screen"],
    store := { candidates := [sampleCandidate "c1" "screen"], timeline := [] } }

/-- C1 counterexample: the stage-changing write the Kanban drag-drop
performs (`CandidatesKanban.updateCandidateStage`) succeeds moving `c1` from
`screen` to `offer` and persists the new stage, yet the persisted timeline
gains no `stage_change` event at all — not the exactly-one event the claim
requires of every successful drag-drop commit. -/
theorem C1_kanban_counterexample :
    (CandidatesKanban.updateCandidateStage false "c1" "offer" c1state).1 = true
    ∧ ((CandidatesKanban.updateCandidateStage false "c1" "offer" c1state).2.store.candidates.map
        Candidate.stage) = ["offer"]
    ∧ ¬ ((CandidatesKanban.updateCandidateStage false "c1" "offer" c1state).2.store.timeline.countP
          (fun e => e.type == "stage_change") =
        c1state.store.timeline.countP (fun e => e.type == "stage_change") + 1) := by
  refine ⟨rfl, by decide, by decide⟩

/-- C1 amended: only the PATCH `/candidates/:id` handler has the claimed
behaviour — a successful stage change from `c.stage` to `t` appends exactly
one timeline event, of type `stage_change` with `metadata` recording the old
and new stage, and persists `stage = t` — while the Kanban drag path
persists the stage without appending any timeline event. -/
theorem C1_patch_appends_one_stage_change (newId nowIso id t : String)
    (u : Handlers.PatchUpdates) (s : Store) (c : Candidate)
    (hfind : s.candidates.find? (fun x => x.id == id) = some c)
    (hstage : u.stage = some t) (hne : t ≠ "") (hdiff : t ≠ c.stage) :
    (Handlers.patchCandidate false false false newId nowIso id u s).1 =
      .ok (Handlers.applyPatchUpdates c u nowIso)
    ∧ (Handlers.patchCandidate false false false newId nowIso id u s).2.timeline =
        s.timeline ++ [Handlers.patchStageEvent newId id c.stage t nowIso]
    ∧ (Handlers.patchStageEvent newId id c.stage t nowIso).type = "stage_change"
    ∧ (Handlers.patchStageEvent newId id c.stage t nowIso).metadata =
        some { fromStage := c.stage, toStage := t }
    ∧ (Handlers.applyPatchUpdates c u nowIso).stage = t
    ∧ (∀ d ∈ (Handlers.patchCandidate false false false newId nowIso id u s).2.candidates,
        d.id = id → d.stage = t)
    ∧ (∀ (st : CandidatesKanban.KanbanState) (kid kt : String),
        (CandidatesKanban.updateCandidateStage false kid kt st).2.store.timeline =
          st.store.timeline) := by
  have hb1 : (t != "") = true := bne_iff_ne.mpr hne
  have hb2 : (t != c.stage) = true := bne_iff_ne.mpr hdiff
  have hrun : Handlers.patchCandidate false false false newId nowIso id u s =
      (.ok (Handlers.applyPatchUpdates c u nowIso),
        candidatesUpdate
          { s with timeline := s.timeline ++ [Handlers.patchStageEvent newId id c.stage t nowIso] }
          id (fun _ => Handlers.applyPatchUpdates c u nowIso)) := by
    simp [Handlers.patchCandidate, hfind, hstage, hb1, hb2, timelineAdd,
      Handlers.patchStageEvent]
  refine ⟨by rw [hrun], by rw [hrun]; rfl, rfl, rfl, ?_, ?_, fun _ _ _ => rfl⟩
  · simp [Handlers.applyPatchUpdates, hstage]
  · intro d hd hdid
    rw [hrun] at hd
    simp only [candidatesUpdate, List.mem_map] at hd
    obtain ⟨x, _, hx⟩ := hd
    by_cases hxid : x.id == id
    · rw [if_pos hxid] at hx
      subst hx
      simp [Handlers.applyPatchUpdates, hstage]
    · rw [if_neg hxid] at hx
      subst hx
      exact absurd (beq_iff_eq.mpr hdid) hxid

/-- The patch body used by the C1 witness. -/
def c1updates : Handlers.PatchUpdates := { stage := some "offer", notes := none }

/-- Witness for C1 at a concrete input: candidate `c1` at stage `screen`,
PATCH body `stage = offer`, all hypotheses discharged by evaluation. -/
theorem C1_patch_witness :
    c2store.candidates.find? (fun x => x.id == "c1") = some (sampleCandidate "c1" "applied")
    ∧ c1updates.stage = some "offer"
    ∧ ((Handlers.patchCandidate false false false "e1" "2024-02-02T00:00:00Z" "c1" c1updates
          c2store).1 =
        .ok (Handlers.applyPatchUpdates (sampleCandidate "c1" "applied") c1updates
          "2024-02-02T00:00:00Z")
       ∧ (Handlers.patchCandidate false false false "e1" "2024-02-02T00:00:00Z" "c1" c1updates
            c2store).2.timeline =
          c2store.timeline ++
            [Handlers.patchStageEvent "e1" "c1" (sampleCandidate "c1" "applied").stage "offer"
              "2024-02-02T00:00:00Z"]
       ∧ (Handlers.patchStageEvent "e1" "c1" (sampleCandidate "c1" "applied").stage "offer"
            "2024-02-02T00:00:00Z").type = "stage_change"
       ∧ (Handlers.patchStageEvent "e1" "c1" (sampleCandidate "c1" "applied").stage "offer"
            "2024-02-02T00:00:00Z").metadata =
          some { fromStage := (sampleCandidate "c1" "applied").stage, toStage := "offer" }
       ∧ (Handlers.applyPatchUpdates (sampleCandidate "c1" "applied") c1updates
            "2024-02-02T00:00:00Z").stage = "offer"
       ∧ (∀ d ∈ (Handlers.patchCandidate false false false "e1" "2024-02-02T00:00:00Z" "c1"
              c1updates c2store).2.candidates,
            d.id = "c1" → d.stage = "offer")
       ∧ (∀ (st : CandidatesKanban.KanbanState) (kid kt : String),
            (CandidatesKanban.updateCandidateStage false kid kt st).2.store.timeline =
              st.store.timeline)) :=
  ⟨rfl, rfl,
    C1_patch_appends_one_stage_change "e1" "2024-02-02T00:00:00Z" "c1" "offer" c1updates
      c2store (sampleCandidate "c1" "applied") rfl rfl (by decide) (by decide)⟩

lemma find_group (stages : List CandidatesKanban.StageInfo) (paginated : List Candidate)
    (ov cstage : String)
    (hmem : cstage ∈ stages.map CandidatesKanban.StageInfo.value)
    (hex : ∃ d ∈ paginated, d.id = ov ∧ d.stage = cstage)
    (huniq : ∀ e ∈ paginated, e.id = ov → e.stage = cstage) :
    ((stages.map (fun st => (st.value, paginated.filter (fun c => c.stage == st.value)))).find?
        (fun p => p.2.any (fun c => c.id == ov))).map Prod.fst = some cstage := by
  induction stages with
  | nil => simp at hmem
  | cons s ss ih =>
    rw [List.map_cons] at hmem
    by_cases hsv : s.value = cstage
    · obtain ⟨d, hdmem, hdid, hdstage⟩ := hex
      have hpred : ((paginated.filter (fun c => c.stage == s.value)).any
          (fun c => c.id == ov)) = true := by
        refine List.any_eq_true.mpr ⟨d, ?_, beq_iff_eq.mpr hdid⟩
        exact List.mem_filter.mpr ⟨hdmem, beq_iff_eq.mpr (hsv ▸ hdstage)⟩
      rw [List.map_cons,
        show ((s.value, paginated.filter (fun c => c.stage == s.value)) ::
              ss.map (fun st => (st.value, paginated.filter (fun c => c.stage == st.value)))).find?
            (fun p => p.2.any (fun c => c.id == ov)) =
          some (s.value, paginated.filter (fun c => c.stage == s.value)) from
          List.find?_cons_of_pos _ hpred]
      simpa using hsv
    · have hpred : ((paginated.filter (fun c => c.stage == s.value)).any
          (fun c => c.id == ov)) = false := by
        refine List.any_eq_false.mpr ?_
        intro x hx hbeq
        obtain ⟨hxmem, hxstage⟩ := List.mem_filter.mp hx
        exact hsv ((beq_iff_eq.mp hxstage) ▸ (huniq x hxmem (beq_iff_eq.mp hbeq)))
      rw [List.map_cons,
        show ((s.value, paginated.filter (fun c => c.stage == s.value)) ::
              ss.map (fun st => (st.value, paginated.filter (fun c => c.stage == st.value)))).find?
            (fun p => p.2.any (fun c => c.id == ov)) =
          (ss.map (fun st => (st.value, paginated.filter (fun c => c.stage == st.value)))).find?
            (fun p => p.2.any (fun c => c.id == ov)) from
          List.find?_cons_of_neg _ (by simp [hpred])]
      have hmem' : cstage ∈ ss.map CandidatesKanban.StageInfo.value := by
        rcases List.mem_cons.mp hmem with h | h
        · exact absurd h.symm hsv
        · exact h
      exact ih hmem'

/-- C4: a drop whose target resolves to the dragged candidate's current
stage is a no-op.  First conjunct: `handleDragEnd` returns without invoking
the mutation whenever the resolved target stage equals the active
candidate's stage.  Second conjunct: a drop onto another card of the
candidate's own column (the card's id is no stage value, every paginated
card with that id sits in the candidate's stage, and that stage is a
registry member) resolves exactly to the candidate's current stage.  Third
conjunct: the no-op action issues zero store calls and leaves cache, store
and timeline untouched.  Fourth conjunct: `CandidatesList.handleStageDrop`
is likewise a no-op when the dropped stage equals the candidate's stage. -/
theorem C4_noop_transition :
    (∀ (filtered paginated : List Candidate) (activeId ov : String) (c : Candidate),
        filtered.find? (fun x => x.id == activeId) = some c →
        CandidatesKanban.resolveNewStage paginated ov = some c.stage →
        CandidatesKanban.handleDragEnd filtered paginated activeId (some ov) = .noop)
    ∧ (∀ (paginated : List Candidate) (ov : String) (c : Candidate),
        (CandidatesKanban.STAGES.any (fun s => s.value == ov)) = false →
        (∃ d ∈ paginated, d.id = ov ∧ d.stage = c.stage) →
        (∀ e ∈ paginated, e.id = ov → e.stage = c.stage) →
        c.stage ∈ stageRegistry →
        CandidatesKanban.resolveNewStage paginated ov = some c.stage)
    ∧ (∀ (failDb : Bool) (st : CandidatesKanban.KanbanState),
        CandidatesKanban.applyDragEnd .noop failDb st = (true, st))
    ∧ (∀ (cands : List Candidate) (cid : String) (c : Candidate),
        cands.find? (fun x => x.id == cid) = some c →
        CandidatesList.handleStageDrop cands cid c.stage = .noop) := by
  refine ⟨?_, ?_, fun _ _ => rfl, ?_⟩
  · intro filtered paginated activeId ov c hfind hres
    simp [CandidatesKanban.handleDragEnd, hfind, hres]
  · intro paginated ov c hany hex huniq hreg
    rw [CandidatesKanban.resolveNewStage, if_neg (by simp [hany])]
    rw [CandidatesKanban.stageOfOverId, CandidatesKanban.candidatesByStage]
    exact find_group CandidatesKanban.STAGES paginated ov c.stage
      (show c.stage ∈ CandidatesKanban.STAGES.map CandidatesKanban.StageInfo.value from hreg)
      hex huniq
  · intro cands cid c hfind
    rw [CandidatesList.handleStageDrop]
    cases h1 : (cid == "" || c.stage == "") with
    | true => simp [h1]
    | false => simp [h1, hfind]

/-- Witness for C4 at concrete inputs: a candidate at `screen` dropped onto
the `screen` column is a no-op in both drag implementations, the
same-column resolution hypothesis set is satisfiable, and the no-op action
leaves a concrete state untouched. -/
theorem C4_noop_witness :
    CandidatesKanban.handleDragEnd [sampleCandidate "c1" "screen"]
        [sampleCandidate "c1" "screen"] "c1" (some "screen") = .noop
    ∧ CandidatesKanban.resolveNewStage [sampleCandidate "c1" "screen"] "c1" = some "screen"
    ∧ CandidatesKanban.applyDragEnd .noop true c1state = (true, c1state)
    ∧ CandidatesList.handleStageDrop [sampleCandidate "c1" "screen"] "c1" "screen" = .noop :=
  ⟨C4_noop_transition.1 [sampleCandidate "c1" "screen"] [sampleCandidate "c1" "screen"]
      "c1" "screen" (sampleCandidate "c1" "screen") rfl rfl,
    C4_noop_transition.2.1 [sampleCandidate "c1" "screen"] "c1" (sampleCandidate "c1" "screen")
      (by decide) ⟨sampleCandidate "c1" "screen", by decide, by decide, by decide⟩
      (by decide) (by decide),
    C4_noop_transition.2.2.1 true c1state,
    C4_noop_transition.2.2.2 [sampleCandidate "c1" "screen"] "c1"
      (sampleCandidate "c1" "screen") rfl⟩

/-- C5 counterexample: a candidate carrying the non-registry stage value
`bogus` is dropped by the grouping — the union of all grouped lists is
empty, so the input element does not appear exactly once in the union. -/
theorem C5_grouping_counterexample :
    CandidatesKanban.groupedUnion [sampleCandidate "c1" "bogus"] = []
    ∧ ¬ (occ (sampleCandidate "c1" "bogus")
          (CandidatesKanban.groupedUnion [sampleCandidate "c1" "bogus"]) = 1) := by
  refine ⟨by decide, by decide⟩

/-- C5 amended: `candidatesByStage` has a key for every registry stage (in
registry order), and each candidate record occurs in the union of all
grouped lists exactly as often as in the input when its stage is a registry
member — never duplicated across groups — while a candidate whose stage lies
outside the registry is dropped (zero occurrences). -/
theorem C5_grouping_completeness (cs : List Candidate) (c : Candidate) :
    (CandidatesKanban.candidatesByStage cs).map Prod.fst = stageRegistry
    ∧ occ c (CandidatesKanban.groupedUnion cs) =
        (if c.stage ∈ stageRegistry then occ c cs else 0) := by
  constructor
  · simp only [CandidatesKanban.candidatesByStage, List.map_map]
    rfl
  · have expand : CandidatesKanban.groupedUnion cs =
        cs.filter (fun x => x.stage == "applied") ++
          (cs.filter (fun x => x.stage == "screen") ++
            (cs.filter (fun x => x.stage == "tech") ++
              (cs.filter (fun x => x.stage == "offer") ++
                (cs.filter (fun x => x.stage == "hired") ++
                  (cs.filter (fun x => x.stage == "rejected") ++ []))))) := rfl
    rw [expand]
    simp only [occ_append, occ_filter, List.append_nil]
    by_cases h1 : c.stage = "applied"
    · simp [stageRegistry, h1]
    · by_cases h2 : c.stage = "screen"
      · simp [stageRegistry, h1, h2]
      · by_cases h3 : c.stage = "tech"
        · simp [stageRegistry, h1, h2, h3]
        · by_cases h4 : c.stage = "offer"
          · simp [stageRegistry, h1, h2, h3, h4]
          · by_cases h5 : c.stage = "hired"
            · simp [stageRegistry, h1, h2, h3, h4, h5]
            · by_cases h6 : c.stage = "rejected"
              · simp [stageRegistry, h1, h2, h3, h4, h5, h6]
              · simp [stageRegistry, h1, h2, h3, h4, h5, h6]

lemma map_noop_of_no_match (l : List Candidate) (kid kt : String)
    (h : ∀ c ∈ l, c.id ≠ kid) :
    l.map (fun c => if c.id == kid then { c with stage := kt } else c) = l := by
  induction l with
  | nil => rfl
  | cons a l ih =>
    rw [List.map_cons, if_neg (by simp [h a (List.mem_cons_self a l)]),
      ih (fun c hc => h c (List.mem_cons_of_mem a hc))]

/-- C6 counterexample: the Kanban stage-change write with an unknown
candidate id does not fail at all — `db.candidates.update` matches zero
rows and resolves, so the mutation reports success and the state is simply
unchanged — contradicting the claim that every such call fails with
NotFound. -/
theorem C6_kanban_unknown_id_counterexample :
    (CandidatesKanban.updateCandidateStage false "ghost" "offer" c1state).1 = true
    ∧ (CandidatesKanban.updateCandidateStage false "ghost" "offer" c1state).2 = c1state := by
  refine ⟨rfl, by decide⟩

/-- C6 amended: the PATCH `/candidates/:id` handler does fail with a 404
NotFound for an unknown id, performing no store write, and that result is
distinguishable from the 500 StorageFailure result; the direct-Dexie Kanban
path, however, does not fail for an unknown id — its update matches zero
records, the mutation resolves successfully, and no candidate is mutated
and no timeline event appended. -/
theorem C6_not_found_semantics (netFail addFail updFail : Bool) (newId nowIso id : String)
    (u : Handlers.PatchUpdates) (s : Store)
    (hnet : netFail = false)
    (hno : s.candidates.find? (fun c => c.id == id) = none)
    (st : CandidatesKanban.KanbanState) (kid kt : String)
    (hcache : ∀ c ∈ st.cache, c.id ≠ kid)
    (hstore : ∀ c ∈ st.store.candidates, c.id ≠ kid) :
    Handlers.patchCandidate netFail addFail updFail newId nowIso id u s = (.notFound, s)
    ∧ Handlers.PatchResult.notFound ≠ Handlers.PatchResult.serverError
    ∧ CandidatesKanban.updateCandidateStage false kid kt st = (true, st) := by
  subst hnet
  refine ⟨?_, ?_, ?_⟩
  · simp [Handlers.patchCandidate, hno]
  · decide
  have hc : CandidatesKanban.kanbanOptimistic st.cache kid kt = st.cache :=
    map_noop_of_no_match st.cache kid kt hcache
  have hs : st.store.candidates.map
      (fun c => if c.id == kid then { c with stage := kt } else c) = st.store.candidates :=
    map_noop_of_no_match st.store.candidates kid kt hstore
  have hrun : CandidatesKanban.updateCandidateStage false kid kt st =
      (true, { st with store := candidatesUpdate st.store kid (fun c => { c with stage := kt }) }) := by
    simp [CandidatesKanban.updateCandidateStage, CandidatesKanban.beginMutation,
      CandidatesKanban.resolveMutation, hc]
  rw [hrun,
    show candidatesUpdate st.store kid (fun c => { c with stage := kt }) = st.store by
      unfold candidatesUpdate
      rw [hs]]

/-- The patch body used by the C6 witness. -/
def c6updates : Handlers.PatchUpdates := { stage := some "tech", notes := none }

/-- The client state used by the C6 witness. -/
def c6state : CandidatesKanban.KanbanState :=
  { cache := [sampleCandidate "c1" "applied"],
    store := { candidates := [sampleCandidate "c1" "applied"], timeline := [] } }

/-- Witness for C6 at a concrete input: the id `ghost` is unknown to both
the handler's store and the Kanban state. -/
theorem C6_not_found_witness :
    c2store.candidates.find? (fun c => c.id == "ghost") = none
    ∧ (Handlers.patchCandidate false false false "e1" "2024-02-02T00:00:00Z" "ghost" c6updates
          c2store = (.notFound, c2store)
       ∧ Handlers.PatchResult.notFound ≠ Handlers.PatchResult.serverError
       ∧ CandidatesKanban.updateCandidateStage false "ghost" "tech" c6state = (true, c6state)) :=
  ⟨rfl,
    C6_not_found_semantics false false false "e1" "2024-02-02T00:00:00Z" "ghost" c6updates
      c2store rfl rfl c6state "ghost" "tech" (by decide) (by decide)⟩

/-- Interleaving of two overlapping Kanban stage mutations in which the
transition that will fail (candidate `cB`) takes its `onMutate` snapshot
before the succeeding transition (candidate `cA`) applies its optimistic
update; `cA`'s Dexie write succeeds, then `cB`'s fails and its `onError`
restores its whole-list snapshot. -/
def badOrderScript (cA cB : Candidate) (tA tB : String)
    (st0 : CandidatesKanban.KanbanState) : CandidatesKanban.KanbanState :=
  let pB := CandidatesKanban.beginMutation cB.id tB st0
  let pA := CandidatesKanban.beginMutation cA.id tA pB.2
  let rA := CandidatesKanban.resolveMutation false cA.id tA pA.1 pA.2
  let rB := CandidatesKanban.resolveMutation true cB.id tB pB.1 rA.2
  rB.2

/-- Interleaving of two overlapping Kanban stage mutations in which the
failing transition's snapshot is taken after the succeeding transition's
optimistic update was applied; returns both mutation outcomes and the final
state. -/
def goodOrderScript (cA cB : Candidate) (tA tB : String)
    (st0 : CandidatesKanban.KanbanState) : (Bool × Bool) × CandidatesKanban.KanbanState :=
  let pA := CandidatesKanban.beginMutation cA.id tA st0
  let pB := CandidatesKanban.beginMutation cB.id tB pA.2
  let rA := CandidatesKanban.resolveMutation false cA.id tA pA.1 pB.2
  let rB := CandidatesKanban.resolveMutation true cB.id tB pB.1 rA.2
  ((rA.1, rB.1), rB.2)

/-- The two candidates of the C7 scenario: `A` at `applied`, `B` at `tech`. -/
def c7A : Candidate := sampleCandidate "A" "applied"

/-- Second candidate of the C7 scenario. -/
def c7B : Candidate := sampleCandidate "B" "tech"

/-- Initial client state of the C7 scenario. -/
def c7init : CandidatesKanban.KanbanState :=
  { cache := [c7A, c7B], store := { candidates := [c7A, c7B], timeline := [] } }

/-- C7 counterexample: with A→`screen` succeeding and B→`offer` failing,
under the interleaving where B's snapshot predates A's optimistic update,
B's rollback restores the whole-list snapshot and thereby reverts A's
committed optimistic update: after both resolve, A's persisted stage is
`screen` but A's cached stage is back to `applied`, and no timeline event
was appended for A's success — contradicting both the cached-stage
independence and the one-new-timeline-event parts of the claim. -/
theorem C7_rollback_interference_counterexample :
    ((badOrderScript c7A c7B "screen" "offer" c7init).store.candidates.find?
        (fun c => c.id == "A")).map Candidate.stage = some "screen"
    ∧ ((badOrderScript c7A c7B "screen" "offer" c7init).cache.find?
        (fun c => c.id == "A")).map Candidate.stage = some "applied"
    ∧ ¬ (((badOrderScript c7A c7B "screen" "offer" c7init).cache.find?
          (fun c => c.id == "A")).map Candidate.stage = some "screen")
    ∧ ((badOrderScript c7A c7B "screen" "offer" c7init).cache.find?
        (fun c => c.id == "B")).map Candidate.stage = some "tech"
    ∧ (badOrderScript c7A c7B "screen" "offer" c7init).store.timeline.length = 0 := by
  refine ⟨by decide, by decide, by decide, by decide, by decide⟩

/-- C7 amended: the persisted rows stay independent (A's success writes
only A's row, B's failure writes nothing), and cached independence holds
when the failing transition's snapshot is taken after the succeeding
transition's optimistic update: A's cached and persisted stage equal A's
new stage, B's cached and persisted stage equal B's pre-drag stage — but
the Kanban path appends zero timeline events even for the success. -/
theorem C7_concurrent_independence_amended (cA cB : Candidate) (tA tB : String)
    (hid : cA.id ≠ cB.id) :
    (goodOrderScript cA cB tA tB
        { cache := [cA, cB], store := { candidates := [cA, cB], timeline := [] } }).1.1 = true
    ∧ (goodOrderScript cA cB tA tB
        { cache := [cA, cB], store := { candidates := [cA, cB], timeline := [] } }).1.2 = false
    ∧ (goodOrderScript cA cB tA tB
        { cache := [cA, cB], store := { candidates := [cA, cB], timeline := [] } }).2.cache =
        [{ cA with stage := tA }, cB]
    ∧ (goodOrderScript cA cB tA tB
        { cache := [cA, cB], store := { candidates := [cA, cB], timeline := [] } }).2.store.candidates =
        [{ cA with stage := tA }, cB]
    ∧ (goodOrderScript cA cB tA tB
        { cache := [cA, cB], store := { candidates := [cA, cB], timeline := [] } }).2.store.timeline =
        [] := by
  have hBA : (cB.id == cA.id) = false := beq_eq_false_iff_ne.mpr (fun h => hid h.symm)
  have hAB : (cA.id == cB.id) = false := beq_eq_false_iff_ne.mpr hid
  have hBA' : ¬ (cB.id = cA.id) := fun h => hid h.symm
  refine ⟨rfl, rfl, ?_, ?_, rfl⟩
  · simp [goodOrderScript, CandidatesKanban.beginMutation, CandidatesKanban.resolveMutation,
      CandidatesKanban.kanbanOptimistic, candidatesUpdate, hBA, hAB, hBA', hid]
  · simp [goodOrderScript, CandidatesKanban.beginMutation, CandidatesKanban.resolveMutation,
      CandidatesKanban.kanbanOptimistic, candidatesUpdate, hBA, hAB, hBA', hid]

/-- Witness for C7's amended theorem at the claim's concrete scenario:
A at `applied` moving to `screen`, B at `tech` moving to `offer`. -/
theorem C7_concurrent_independence_witness :
    c7A.id ≠ c7B.id
    ∧ ((goodOrderScript c7A c7B "screen" "offer"
          { cache := [c7A, c7B], store := { candidates := [c7A, c7B], timeline := [] } }).1.1 = true
       ∧ (goodOrderScript c7A c7B "screen" "offer"
          { cache := [c7A, c7B], store := { candidates := [c7A, c7B], timeline := [] } }).1.2 = false
       ∧ (goodOrderScript c7A c7B "screen" "offer"
          { cache := [c7A, c7B], store := { candidates := [c7A, c7B], timeline := [] } }).2.cache =
          [{ c7A with stage := "screen" }, c7B]
       ∧ (goodOrderScript c7A c7B "screen" "offer"
          { cache := [c7A, c7B], store := { candidates := [c7A, c7B], timeline := [] } }).2.store.candidates =
          [{ c7A with stage := "screen" }, c7B]
       ∧ (goodOrderScript c7A c7B "screen" "offer"
          { cache := [c7A, c7B], store := { candidates := [c7A, c7B], timeline := [] } }).2.store.timeline =
          []) :=
  ⟨by decide, C7_concurrent_independence_amended c7A c7B "screen" "offer" (by decide)⟩

